import Mathlib

/-!
Verification of the EndUID signed-request client and batch check-in
scheduler against a shallow embedding of the Python source.

The embedding follows the source files:
  EndUID/utils/api/ds.py         (request signer)
  EndUID/utils/api/requests.py   (token lifecycle, generic request method)
  EndUID/end_sign/sign_handler.py (per-account check-in with retry, batch tally)
  EndUID/end_sign/sign_state.py  (batch-run state file)
  EndUID/end_sign/__init__.py    (manual / scheduled entry points)

Python machine-level collaborators (hashlib, hmac, aiohttp, the ORM, the
file system) are modelled as explicit parameters or explicit state; pure
Python string/JSON manipulation is re-implemented bit-for-bit.
-/

namespace EndUID

/-! ## UTF-8 encoding (model of Python `str.encode` to a byte list) -/

/-- UTF-8 encoding of a single Unicode code point, as a list of byte values. -/
def utf8EncodeCp (c : Nat) : List Nat :=
  if c < 0x80 then [c]
  else if c < 0x800 then
    [0xC0 ||| (c >>> 6), 0x80 ||| (c &&& 0x3F)]
  else if c < 0x10000 then
    [0xE0 ||| (c >>> 12), 0x80 ||| ((c >>> 6) &&& 0x3F), 0x80 ||| (c &&& 0x3F)]
  else
    [0xF0 ||| (c >>> 18), 0x80 ||| ((c >>> 12) &&& 0x3F),
     0x80 ||| ((c >>> 6) &&& 0x3F), 0x80 ||| (c &&& 0x3F)]

/-- UTF-8 encoding of a whole string (Python `s.encode("utf-8")`). -/
def utf8Bytes (s : String) : List Nat :=
  s.data.foldr (fun c acc => utf8EncodeCp c.toNat ++ acc) []

/-! ## Python `json.dumps` with `separators=(",", ":")` (compact, ensure_ascii) -/

/-- Lowercase hexadecimal digit character for a value below 16. -/
def hexDigitChar (n : Nat) : Char :=
  if n < 10 then Char.ofNat (48 + n) else Char.ofNat (87 + (n % 16))

/-- Four lowercase hex digits, as used in JSON `\uXXXX` escapes. -/
def hex4 (n : Nat) : String :=
  String.mk [hexDigitChar ((n >>> 12) &&& 15), hexDigitChar ((n >>> 8) &&& 15),
             hexDigitChar ((n >>> 4) &&& 15), hexDigitChar (n &&& 15)]

/-- Escape of one character inside a JSON string literal, following CPython
`json.encoder.py_encode_basestring_ascii` (the `ensure_ascii=True` default used
by `json.dumps` in the source): printable ASCII other than quote and backslash
stays, short escapes for the usual control characters, `\uXXXX` otherwise, with
surrogate pairs above the BMP. -/
def pyJsonEscapeChar (c : Char) : String :=
  let n := c.toNat
  if n = 34 then "\\\""
  else if n = 92 then "\\\\"
  else if n = 10 then "\\n"
  else if n = 13 then "\\r"
  else if n = 9 then "\\t"
  else if n = 8 then "\\b"
  else if n = 12 then "\\f"
  else if n < 0x20 then "\\u" ++ hex4 n
  else if n < 0x7f then String.mk [c]
  else if n < 0x10000 then "\\u" ++ hex4 n
  else
    let v := n - 0x10000
    "\\u" ++ hex4 (0xD800 + (v >>> 10)) ++ "\\u" ++ hex4 (0xDC00 + (v &&& 0x3FF))

/-- JSON string literal for a Python `str` value (compact, ascii-only). -/
def pyJsonStr (s : String) : String :=
  "\"" ++ String.join (s.data.map pyJsonEscapeChar) ++ "\""

/-- Python JSON values, as far as the embedded code builds them: the request
bodies and signing headers in the source are dicts of strings, numbers,
booleans, lists and nested dicts.  Dict fields keep insertion order, as Python
dicts and `json.dumps` do. -/
inductive PyJson where
  | null
  | bool (b : Bool)
  | int (n : Int)
  | str (s : String)
  | arr (xs : List PyJson)
  | obj (fields : List (String × PyJson))

mutual

/-- Model of `json.dumps(v, separators=(",", ":"))`: compact serialization with
no whitespace, `ensure_ascii` escaping, dict fields in insertion order. -/
def PyJson.dumps : PyJson → String
  | .null => "null"
  | .bool true => "true"
  | .bool false => "false"
  | .int n => toString n
  | .str s => pyJsonStr s
  | .arr xs => "[" ++ PyJson.dumpsList xs ++ "]"
  | .obj fs => "\x7b" ++ PyJson.dumpsFields fs ++ "\x7d"

/-- Comma-joined serialization of JSON array elements. -/
def PyJson.dumpsList : List PyJson → String
  | [] => ""
  | [x] => x.dumps
  | x :: y :: rest => x.dumps ++ "," ++ PyJson.dumpsList (y :: rest)

/-- Comma-joined serialization of JSON object fields (`"key":value`). -/
def PyJson.dumpsFields : List (String × PyJson) → String
  | [] => ""
  | [kv] => pyJsonStr kv.1 ++ ":" ++ kv.2.dumps
  | kv :: kv2 :: rest => pyJsonStr kv.1 ++ ":" ++ kv.2.dumps ++ "," ++ PyJson.dumpsFields (kv2 :: rest)

end

/-! ## Request signer (`EndUID/utils/api/ds.py`, `generate_sign`) -/

/-- Return value of `generate_sign`: the dict
`("sign": md5_hash, "timestamp": str(timestamp))`. -/
structure SignResult where
  sign : String
  timestamp : String
deriving Repr, DecidableEq

/-- Model of `ds.generate_sign`.  The two digest primitives live in the Python
standard library (`hmac.new(key, msg, hashlib.sha256).hexdigest()` and
`hashlib.md5(data).hexdigest()`), outside this repository, so they enter the
embedding as parameters: `hmacSha256Hex key msg` stands for the lowercase-hex
HMAC-SHA256 digest of byte list `msg` keyed by byte list `key`, and `md5Hex
data` for the lowercase-hex MD5 digest of byte list `data`.  Everything the
repository itself computes (the header dict, its compact JSON dump, the
concatenated sign string, the UTF-8 encodings, the composition order of the two
digests) is embedded concretely.  `timestamp` is passed explicitly, matching
the non-defaulted branch of the Python optional parameter. -/
def generate_sign
    (hmacSha256Hex : List Nat → List Nat → String)
    (md5Hex : List Nat → String)
    (token : String) (path : String) (query_or_body : String)
    (timestamp : Int) (platform : String) (vname : String) (did : String) :
    SignResult :=
  let header_for_sign : PyJson :=
    .obj [("platform", .str platform), ("timestamp", .str (toString timestamp)),
          ("dId", .str did), ("vName", .str vname)]
  let header_json := header_for_sign.dumps
  let sign_string := path ++ query_or_body ++ toString timestamp ++ header_json
  let hmac_hash := hmacSha256Hex (utf8Bytes token) (utf8Bytes sign_string)
  let md5_hash := md5Hex (utf8Bytes hmac_hash)
  { sign := md5_hash, timestamp := toString timestamp }

/-- Restatement of the signature algorithm in the specification vocabulary, to
be compared with `generate_sign`: the (lowercase-hex) MD5 digest of the
(lowercase-hex) HMAC-SHA256 digest, keyed by the UTF-8 token, of the UTF-8
message. -/
def specTwoStageDigest
    (hmacSha256Hex : List Nat → List Nat → String)
    (md5Hex : List Nat → String)
    (token : String) (message : String) : String :=
  md5Hex (utf8Bytes (hmacSha256Hex (utf8Bytes token) (utf8Bytes message)))

/-- Restatement of the claimed signing message, built from the specification
words: path, then payload, then the decimal timestamp string, then the compact
no-whitespace JSON object with keys platform, timestamp, dId, vName in that
order. -/
def specSignMessage (path payload : String) (timestamp : Int)
    (platform did vname : String) : String :=
  path ++ payload ++ toString timestamp ++
    ("\x7b" ++ "\"platform\"" ++ ":" ++ pyJsonStr platform ++ "," ++
     "\"timestamp\"" ++ ":" ++ pyJsonStr (toString timestamp) ++ "," ++
     "\"dId\"" ++ ":" ++ pyJsonStr did ++ "," ++
     "\"vName\"" ++ ":" ++ pyJsonStr vname ++ "\x7d")

/-! ## Payload string of the generic request method
(`EndUID/utils/api/requests.py`, `EndApi.request`, lines 198–213) -/

/-- Code-point comparison of character lists, strict: this is how Python
compares `str` values (`a < b` lexicographically by code point). -/
def charListLt : List Char → List Char → Bool
  | [], [] => false
  | [], _ :: _ => true
  | _ :: _, [] => false
  | a :: as, b :: bs =>
    if a.toNat < b.toNat then true
    else if b.toNat < a.toNat then false
    else charListLt as bs

/-- Non-strict code-point comparison of character lists. -/
def charListLe : List Char → List Char → Bool
  | [], _ => true
  | _ :: _, [] => false
  | a :: as, b :: bs =>
    if a.toNat < b.toNat then true
    else if b.toNat < a.toNat then false
    else charListLe as bs

/-- Python string order (`a <= b` on `str`), by code points. -/
def pyStrLe (a b : String) : Bool :=
  charListLe a.data b.data

/-- Insertion of one `(key, value)` pair into a key-sorted parameter list.
Python's `sorted(params.items())` sorts the `(key, value)` tuples; since
`params` is a dict its keys are pairwise distinct, so the tuple comparison only
ever consults the key, and a key-ordered sort is the faithful model. -/
def insertByKey (p : String × String) : List (String × String) → List (String × String)
  | [] => [p]
  | q :: rest =>
    if pyStrLe p.1 q.1 then p :: q :: rest else q :: insertByKey p rest

/-- Model of `sorted(params.items())` for a dict rendered as an ordered
association list. -/
def sortParams (ps : List (String × String)) : List (String × String) :=
  ps.foldr insertByKey []

/-- Join a list of strings with a separator (Python `sep.join(xs)`). -/
def joinSep (sep : String) : List String → String
  | [] => ""
  | [x] => x
  | x :: y :: rest => x ++ sep ++ joinSep sep (y :: rest)

/-- Model of lines 199–204 of `requests.py`:
`query_string = "&".join([f"(k)=(v)" for k, v in sorted(params.items())])`
when `params` is truthy (present and non-empty), `""` otherwise.  Values are
already rendered to strings, as the f-string does. -/
def request_query_string (params : Option (List (String × String))) : String :=
  match params with
  | none => ""
  | some ps =>
    if ps.isEmpty then ""
    else joinSep "&" ((sortParams ps).map (fun kv => kv.1 ++ "=" ++ kv.2))

/-- Model of lines 206–208 of `requests.py`:
`body_string = json.dumps(body, separators=(",", ":"))` when `body` is truthy
(present and non-empty dict), `""` otherwise. -/
def request_body_string (body : Option (List (String × PyJson))) : String :=
  match body with
  | none => ""
  | some fs => if fs.isEmpty then "" else (PyJson.obj fs).dumps

/-- Model of lines 210–213 of `requests.py`: the payload string handed to
`generate_sign` is the query string for GET, and the query string followed by
the body string for every other method (the source only calls it with GET and
POST). -/
def request_payload_string (method : String)
    (params : Option (List (String × String)))
    (body : Option (List (String × PyJson))) : String :=
  if method = "GET" then request_query_string params
  else request_query_string params ++ request_body_string body

/-- Key order on parameter pairs: first components compare at most, by Python
string order. -/
def keyLe (a b : String × String) : Prop :=
  pyStrLe a.1 b.1 = true

instance : DecidablePred (fun ab : (String × String) × (String × String) => keyLe ab.1 ab.2) :=
  fun _ => by unfold keyLe; infer_instance

/-! ## Order lemmas for the query-string sort -/

theorem charListLe_total : ∀ x y : List Char, charListLe x y = true ∨ charListLe y x = true := by
  intro x
  induction x with
  | nil => intro y; left; rfl
  | cons a as ih =>
    intro y
    cases y with
    | nil => right; rfl
    | cons b bs =>
      by_cases h1 : a.toNat < b.toNat
      · left; simp [charListLe, h1]
      · by_cases h2 : b.toNat < a.toNat
        · right; simp [charListLe, h1, h2]
        · rcases ih bs with h | h
          · left; simp [charListLe, h1, h2, h]
          · right; simp [charListLe, h1, h2, h]

theorem charListLe_trans :
    ∀ x y z : List Char, charListLe x y = true → charListLe y z = true →
      charListLe x z = true := by
  intro x
  induction x with
  | nil => intro y z _ _; rfl
  | cons a as ih =>
    intro y z hxy hyz
    cases y with
    | nil => simp [charListLe] at hxy
    | cons b bs =>
      cases z with
      | nil => simp [charListLe] at hyz
      | cons c cs =>
        simp only [charListLe] at hxy hyz ⊢
        by_cases hab : a.toNat < b.toNat
        · by_cases hbc : b.toNat < c.toNat
          · have hac : a.toNat < c.toNat := Nat.lt_trans hab hbc
            simp [hac]
          · by_cases hcb : c.toNat < b.toNat
            · simp [hbc, hcb] at hyz
            · have hac : a.toNat < c.toNat := by omega
              simp [hac]
        · by_cases hba : b.toNat < a.toNat
          · simp [hab, hba] at hxy
          · by_cases hbc : b.toNat < c.toNat
            · have hac : a.toNat < c.toNat := by omega
              simp [hac]
            · by_cases hcb : c.toNat < b.toNat
              · simp [hbc, hcb] at hyz
              · have hax : charListLe as bs = true := by simpa [hab, hba] using hxy
                have hbz : charListLe bs cs = true := by simpa [hbc, hcb] using hyz
                have hac : ¬ a.toNat < c.toNat := by omega
                have hca : ¬ c.toNat < a.toNat := by omega
                simp [hac, hca, ih bs cs hax hbz]

theorem keyLe_total (a b : String × String) : keyLe a b ∨ keyLe b a :=
  charListLe_total a.1.data b.1.data

theorem keyLe_trans {a b c : String × String} (h1 : keyLe a b) (h2 : keyLe b c) : keyLe a c :=
  charListLe_trans a.1.data b.1.data c.1.data h1 h2

theorem insertByKey_perm (p : String × String) :
    ∀ l : List (String × String), (insertByKey p l).Perm (p :: l)
  | [] => .refl _
  | q :: rest => by
    unfold insertByKey
    split
    · exact .refl _
    · exact ((insertByKey_perm p rest).cons q).trans (List.Perm.swap p q rest)

theorem sortParams_perm : ∀ ps : List (String × String), (sortParams ps).Perm ps
  | [] => .refl _
  | p :: rest =>
    (insertByKey_perm p (sortParams rest)).trans ((sortParams_perm rest).cons p)

theorem insertByKey_pairwise (p : String × String) (l : List (String × String))
    (h : l.Pairwise keyLe) : (insertByKey p l).Pairwise keyLe := by
  induction l with
  | nil => exact List.pairwise_singleton _ _
  | cons q rest ih =>
    rcases List.pairwise_cons.mp h with ⟨hq, hrest⟩
    by_cases hpq : pyStrLe p.1 q.1 = true
    · simp only [insertByKey, if_pos hpq]
      refine List.Pairwise.cons ?_ h
      intro x hx
      rcases List.mem_cons.mp hx with rfl | hx
      · exact hpq
      · exact keyLe_trans hpq (hq x hx)
    · simp only [insertByKey, if_neg hpq]
      refine List.Pairwise.cons ?_ (ih hrest)
      intro x hx
      rcases List.mem_cons.mp ((insertByKey_perm p rest).mem_iff.mp hx) with hxe | hx
      · rw [hxe]
        rcases keyLe_total p q with hpq2 | hqp
        · exact absurd hpq2 hpq
        · exact hqp
      · exact hq x hx

theorem sortParams_pairwise : ∀ ps : List (String × String), (sortParams ps).Pairwise keyLe
  | [] => .nil
  | p :: rest => insertByKey_pairwise p (sortParams rest) (sortParams_pairwise rest)

/-! ## Claim theorems C1 and C2 -/

/-- C1: for every token string, path, payload string, integer timestamp,
platform string, version name and device id, `generate_sign` returns a
signature equal to the (lowercase-hex) MD5 digest of the (lowercase-hex)
HMAC-SHA256 digest, keyed by the UTF-8 token, of the concatenation
path + payload + decimal timestamp string + the compact no-whitespace JSON
object with keys platform, timestamp, dId, vName in that order, together with
the decimal timestamp string.  The two digest primitives are universally
quantified stand-ins for the library HMAC-SHA256 and MD5 hex digests. -/
theorem generate_sign_spec
    (hmacSha256Hex : List Nat → List Nat → String) (md5Hex : List Nat → String)
    (token path payload : String) (timestamp : Int)
    (platform vname did : String) :
    generate_sign hmacSha256Hex md5Hex token path payload timestamp platform vname did =
      { sign := specTwoStageDigest hmacSha256Hex md5Hex token
          (specSignMessage path payload timestamp platform did vname),
        timestamp := toString timestamp } := by
  have hp : pyJsonStr "platform" = "\"platform\"" := by decide
  have ht : pyJsonStr "timestamp" = "\"timestamp\"" := by decide
  have hd : pyJsonStr "dId" = "\"dId\"" := by decide
  have hv : pyJsonStr "vName" = "\"vName\"" := by decide
  simp only [generate_sign, specTwoStageDigest, specSignMessage, PyJson.dumps,
    PyJson.dumpsFields, hp, ht, hd, hv, String.append_assoc]

/-- C2: the payload string signed by the generic request method is, for GET
with query parameters, the `key=value` pairs joined with `&` after sorting the
parameters by key (the body never enters, whatever it is); for POST, the sorted
query string (empty without params) followed by the compact-JSON body (empty
without body), query first then body; and POST with no params signs the body
alone. -/
theorem request_payload_string_spec
    (ps : List (String × String)) (body : Option (List (String × PyJson)))
    (fs : List (String × PyJson)) :
    (ps ≠ [] →
      request_payload_string "GET" (some ps) body =
        joinSep "&" ((sortParams ps).map (fun kv => kv.1 ++ "=" ++ kv.2))
      ∧ (sortParams ps).Perm ps ∧ (sortParams ps).Pairwise keyLe)
    ∧
    (ps ≠ [] → fs ≠ [] →
      request_payload_string "POST" (some ps) (some fs) =
        joinSep "&" ((sortParams ps).map (fun kv => kv.1 ++ "=" ++ kv.2)) ++
          (PyJson.obj fs).dumps)
    ∧
    (fs ≠ [] →
      request_payload_string "POST" none (some fs) = (PyJson.obj fs).dumps) := by
  refine ⟨?_, ?_, ?_⟩
  · intro h
    refine ⟨?_, sortParams_perm ps, sortParams_pairwise ps⟩
    simp [request_payload_string, request_query_string, h]
  · intro h1 h2
    simp [request_payload_string, request_query_string, request_body_string, h1, h2]
  · intro h
    simp [request_payload_string, request_query_string, request_body_string, h]

/-- Witness instantiating `request_payload_string_spec` at a concrete request:
the attendance POST body with a two-key GET parameter set. -/
theorem request_payload_string_spec_witness :
    request_payload_string "GET" (some [("uid", "123"), ("gameId", "1")]) none =
        "gameId=1&uid=123"
      ∧ request_payload_string "POST" (some [("uid", "123"), ("gameId", "1")])
          (some [("uid", .str "123"), ("gameId", .str "1")]) =
        "gameId=1&uid=123\x7b\"uid\":\"123\",\"gameId\":\"1\"\x7d"
      ∧ request_payload_string "POST" none (some [("uid", .str "123"), ("gameId", .str "1")]) =
        "\x7b\"uid\":\"123\",\"gameId\":\"1\"\x7d" := by
  have h := request_payload_string_spec [("uid", "123"), ("gameId", "1")]
    (none) [("uid", .str "123"), ("gameId", .str "1")]
  refine ⟨?_, ?_, ?_⟩
  · have := (h.1 (by decide)).1
    rw [this]; decide
  · have := h.2.1 (by decide) (List.cons_ne_nil _ _)
    rw [this]; decide
  · have := h.2.2 (List.cons_ne_nil _ _)
    rw [this]; decide


/-! ## Token lifecycle (`EndUID/utils/api/requests.py`, `EndApi.refresh_token`).
Response codes below are from `EndUID/utils/api/request_util.py`, `class RespCode`. -/

namespace RespCode

/-- Success code (`OK = 0`). -/
def OK : Int := 0

/-- Expired-login code (`TOKEN_INVALID = 220`). -/
def TOKEN_INVALID : Int := 220

/-- Invalid-cred / already-signed code (`CRED_INVALID = 10001`). -/
def CRED_INVALID : Int := 10001

/-- Request-exception code (`REQUEST_ERROR = 10000`). -/
def REQUEST_ERROR : Int := 10000

end RespCode

/-- Slice of the `EndUser` ORM row read by `refresh_token`: the cached token
and the epoch-seconds time of the last refresh. -/
structure EndUserRow where
  token : Option String
  last_cred_request_time : Option Int
deriving Repr, DecidableEq

/-- Parsed JSON body of the refresh endpoint, as far as `refresh_token` reads
it: `code`, `message`, and `data.token` (absence of the latter models a
malformed body, whose KeyError lands in the surrounding `except`). -/
structure RefreshResp where
  code : Int
  message : String
  data_token : Option String
deriving Repr, DecidableEq

/-- Outcome of the one network exchange `refresh_token` may perform: a JSON
body, a non-JSON body (`content_type` without "json"), or a raised network
error. -/
inductive RefreshNet where
  | json (r : RefreshResp)
  | nonJson
  | netError
deriving Repr, DecidableEq

/-- Observable outcome of one `refresh_token` call: the returned value, how
many network refresh calls were made, and the `EndUser.update_data_by_xx`
write (new token and `last_cred_request_time`) if any. -/
structure RefreshOutcome where
  result : Option String
  network_calls : Nat
  db_update : Option (String × Int)
deriving Repr, DecidableEq

/-- Python truthiness of an optional string field (`if user.token:`): present
and non-empty. -/
def pyTruthyStr : Option String → Bool
  | some s => !s.isEmpty
  | none => false

/-- Python truthiness of an optional integer field
(`if user.last_cred_request_time:`): present and non-zero. -/
def pyTruthyInt : Option Int → Bool
  | some n => decide (n ≠ 0)
  | none => false

/-- Value of the `need_refresh` flag computed by requests.py lines 92–110: a
missing row, a falsy token or a falsy last-refresh time force a refresh, and a
recorded time older than 180 seconds does too. -/
def needRefreshCheck (user : Option EndUserRow) (current_time : Int) : Bool :=
  match user with
  | some u =>
    if pyTruthyStr u.token then
      if pyTruthyInt u.last_cred_request_time then
        decide (current_time - u.last_cred_request_time.getD 0 > 180)
      else true
    else true
  | none => true

/-- Model of `EndApi.refresh_token` (requests.py lines 74–153).  The database
read result, the wall clock and the network exchange enter as parameters; the
control flow (empty-cred early exit, the 180-second freshness window, the
`force` flag, the success check `code == RespCode.OK and message == "OK"`, the
database write-back) is translated line by line. -/
def refresh_token (cred : String) (force : Bool) (user : Option EndUserRow)
    (current_time : Int) (net : RefreshNet) : RefreshOutcome :=
  if cred.isEmpty then { result := none, network_calls := 0, db_update := none }
  else if !needRefreshCheck user current_time && !force then
    { result := user.bind (fun u => u.token), network_calls := 0, db_update := none }
  else
    match net with
    | .netError => { result := none, network_calls := 1, db_update := none }
    | .nonJson => { result := none, network_calls := 1, db_update := none }
    | .json r =>
      if r.code = RespCode.OK ∧ r.message = "OK" then
        match r.data_token with
        | some t =>
          { result := some t, network_calls := 1, db_update := some (t, current_time) }
        | none => { result := none, network_calls := 1, db_update := none }
      else { result := none, network_calls := 1, db_update := none }

/-- Condition under which the stored user record carries no usable cache: no
row, a falsy token, or a falsy last-refresh time. -/
def noUsableCache : Option EndUserRow → Prop
  | none => True
  | some u => pyTruthyStr u.token = false ∨ pyTruthyInt u.last_cred_request_time = false

theorem refresh_token_refresh_branch (cred : String) (force : Bool)
    (user : Option EndUserRow) (current_time : Int) (net : RefreshNet)
    (hce : cred.isEmpty = false)
    (h : (!needRefreshCheck user current_time && !force) = false) :
    refresh_token cred force user current_time net =
      match net with
      | .netError => { result := none, network_calls := 1, db_update := none }
      | .nonJson => { result := none, network_calls := 1, db_update := none }
      | .json r =>
        if r.code = RespCode.OK ∧ r.message = "OK" then
          match r.data_token with
          | some t =>
            { result := some t, network_calls := 1, db_update := some (t, current_time) }
          | none => { result := none, network_calls := 1, db_update := none }
        else { result := none, network_calls := 1, db_update := none } := by
  rw [refresh_token.eq_def, hce, h]
  simp

theorem refresh_token_refresh_calls (cred : String) (force : Bool)
    (user : Option EndUserRow) (current_time : Int) (net : RefreshNet)
    (hce : cred.isEmpty = false)
    (h : (!needRefreshCheck user current_time && !force) = false) :
    (refresh_token cred force user current_time net).network_calls = 1 := by
  rw [refresh_token_refresh_branch cred force user current_time net hce h]
  cases net with
  | json r =>
    by_cases hr : r.code = RespCode.OK ∧ r.message = "OK"
    · cases hdt : r.data_token <;> simp [hr, hdt]
    · simp [hr]
  | nonJson => rfl
  | netError => rfl

/-- C3: with a stored record holding a (non-empty) token and a (non-zero) last
refresh time, a non-forced call within 180 seconds of the refresh time returns
the cached token with no network call and no database write; a call more than
180 seconds after it, or with no usable cache, performs exactly one network
call; and whenever a network call is performed, a success response persists the
new token with the current time while any failure (non-success code, wrong
message, malformed body, non-JSON body, network error) returns `none` and
persists nothing. -/
theorem refresh_token_cache_spec
    (cred t : String) (lt current_time : Int) (net : RefreshNet) (force : Bool)
    (hc : cred ≠ "") (ht : t ≠ "") (hl : lt ≠ 0) :
    (current_time - lt ≤ 180 →
      refresh_token cred false (some ⟨some t, some lt⟩) current_time net =
        { result := some t, network_calls := 0, db_update := none })
    ∧
    (current_time - lt > 180 →
      (refresh_token cred force (some ⟨some t, some lt⟩) current_time net).network_calls = 1)
    ∧
    (∀ user : Option EndUserRow, noUsableCache user →
      (refresh_token cred force user current_time net).network_calls = 1)
    ∧
    (∀ user : Option EndUserRow,
      (refresh_token cred force user current_time net).network_calls = 1 →
      (∃ r t2, net = .json r ∧ r.code = RespCode.OK ∧ r.message = "OK" ∧
          r.data_token = some t2 ∧
          refresh_token cred force user current_time net =
            { result := some t2, network_calls := 1, db_update := some (t2, current_time) })
      ∨ ((refresh_token cred force user current_time net).result = none ∧
         (refresh_token cred force user current_time net).db_update = none)) := by
  have hce : cred.isEmpty = false := by
    cases hcc : cred.isEmpty
    · rfl
    · exact absurd ((String.isEmpty_iff cred).mp hcc) hc
  have htt : pyTruthyStr (some t) = true := by
    cases htc : t.isEmpty
    · simp [pyTruthyStr, htc]
    · exact absurd ((String.isEmpty_iff t).mp htc) ht
  have hll : pyTruthyInt (some lt) = true := by
    simp [pyTruthyInt, hl]
  refine ⟨?_, ?_, ?_, ?_⟩
  · intro hfresh
    have hnr : needRefreshCheck (some ⟨some t, some lt⟩) current_time = false := by
      have hdec : decide (current_time - lt > 180) = false := by
        simp only [decide_eq_false_iff_not]
        omega
      simp [needRefreshCheck, htt, hll, hdec]
    rw [refresh_token.eq_def, hce, hnr]
    simp
  · intro hstale
    have hnr : needRefreshCheck (some ⟨some t, some lt⟩) current_time = true := by
      have hdec : decide (current_time - lt > 180) = true := by
        simp only [decide_eq_true_eq]
        omega
      simp [needRefreshCheck, htt, hll, hdec]
    exact refresh_token_refresh_calls cred force _ current_time net hce (by simp [hnr])
  · intro user hu
    have hnr : needRefreshCheck user current_time = true := by
      cases user with
      | none => rfl
      | some u => rcases hu with h | h <;> simp [needRefreshCheck, h]
    exact refresh_token_refresh_calls cred force user current_time net hce (by simp [hnr])
  · intro user hcalls
    by_cases hb : (!needRefreshCheck user current_time && !force) = true
    · exfalso
      rw [refresh_token.eq_def, hce, hb] at hcalls
      simp at hcalls
    · have hb2 : (!needRefreshCheck user current_time && !force) = false :=
        Bool.eq_false_iff.mpr hb
      have hbr := refresh_token_refresh_branch cred force user current_time net hce hb2
      cases net with
      | json r =>
        by_cases hr : r.code = RespCode.OK ∧ r.message = "OK"
        · cases hdt : r.data_token with
          | some t2 =>
            left
            refine ⟨r, t2, rfl, hr.1, hr.2, hdt, ?_⟩
            rw [hbr]
            simp [hr, hdt]
          | none =>
            right
            rw [hbr]
            simp [hr, hdt]
        · right
          rw [hbr]
          simp [hr]
      | nonJson =>
        right
        rw [hbr]
        exact ⟨rfl, rfl⟩
      | netError =>
        right
        rw [hbr]
        exact ⟨rfl, rfl⟩

/-- Witness for `refresh_token_cache_spec`: a concrete fresh-cache hit (no
network call) and a concrete stale-cache refresh (one network call). -/
theorem refresh_token_cache_spec_witness :
    refresh_token "cred0" false (some ⟨some "tok0", some 100⟩) 200
        (.json ⟨0, "OK", some "newtok"⟩) =
      { result := some "tok0", network_calls := 0, db_update := none }
    ∧ (refresh_token "cred0" false (some ⟨some "tok0", some 100⟩) 400
        (.json ⟨0, "OK", some "newtok"⟩)).network_calls = 1 := by
  constructor
  · exact (refresh_token_cache_spec "cred0" "tok0" 100 200
      (.json ⟨0, "OK", some "newtok"⟩) false (by decide) (by decide) (by decide)).1
      (by decide)
  · exact (refresh_token_cache_spec "cred0" "tok0" 100 400
      (.json ⟨0, "OK", some "newtok"⟩) false (by decide) (by decide) (by decide)).2.1
      (by decide)


/-! ## Per-account check-in with retry
(`EndUID/end_sign/sign_handler.py`, `do_sign_in_with_result`) -/

/-- Outcome of one `end_api.attendance` attempt as seen by the retry loop: the
call returned `None`, the call raised, or a response arrived with the given
`code` field. -/
inductive AttemptOutcome where
  | noResp
  | exn
  | code (c : Int)
deriving Repr, DecidableEq

/-- An attempt is a failure when it yields no response, raises, or carries a
code that is neither 0 (success) nor 10001 (already signed). -/
def attemptFails : AttemptOutcome → Prop
  | .noResp => True
  | .exn => True
  | .code c => c ≠ 0 ∧ c ≠ 10001

/-- Observable result of one `do_sign_in_with_result` run: the tagged status
string, how many attendance attempts were made, the sleeps performed between
attempts (each the fixed `retry_delay`), and the `EndSignRecord.mark_signed`
writes, each a `(uid, date)` pair (models.py defaults the date to today). -/
structure SignRunResult where
  status : String
  attempts : Nat
  sleeps : List Rat
  record_writes : List (String × String)
deriving Repr, DecidableEq

/-- Model of `do_sign_in_with_result` (sign_handler.py lines 195–255).  The
loop `for attempt in range(1, max_retries + 1)` is driven by the list of
successive attendance outcomes, whose length is `max_retries`; `retry_delay` is
the fixed sleep between attempts; `uid` and `today` identify the Sign-in Record
written by `EndSignRecord.mark_signed(user.uid)` on codes 0 and 10001.  A
failing attempt retries after sleeping when attempts remain (`attempt <
max_retries`), else the run returns the tagged `fail` result; the trailing
empty-list case is the `return` after the loop, reached only when the loop body
never runs (`max_retries = 0`). -/
def do_sign_in_with_result (uid today : String) (retry_delay : Rat) :
    List AttemptOutcome → SignRunResult
  | [] => { status := "fail", attempts := 0, sleeps := [], record_writes := [] }
  | o :: rest =>
    let retry : SignRunResult :=
      if rest.isEmpty then
        { status := "fail", attempts := 1, sleeps := [], record_writes := [] }
      else
        let r := do_sign_in_with_result uid today retry_delay rest
        { status := r.status, attempts := r.attempts + 1,
          sleeps := retry_delay :: r.sleeps, record_writes := r.record_writes }
    match o with
    | .noResp => retry
    | .exn => retry
    | .code c =>
      if c = 0 then
        { status := "success", attempts := 1, sleeps := [], record_writes := [(uid, today)] }
      else if c = 10001 then
        { status := "signed", attempts := 1, sleeps := [], record_writes := [(uid, today)] }
      else retry

/-- One entry of the `asyncio.gather` result list consumed by the batch
aggregator: a captured exception or a structured result dict carrying a status
string. -/
inductive BatchItem where
  | exn
  | res (status : String)
deriving Repr, DecidableEq

/-- Aggregate counters of `end_auto_sign` (sign_handler.py lines 150–163). -/
structure Counts where
  success : Nat
  signed : Nat
  fail : Nat
deriving Repr, DecidableEq

/-- Model of the result-classification loop of `end_auto_sign`: an exception
counts as a failure, a dict counts by its status string, where anything other
than "success" and "signed" is a failure. -/
def tally : List BatchItem → Counts
  | [] => { success := 0, signed := 0, fail := 0 }
  | it :: rest =>
    let c := tally rest
    match it with
    | .exn => { c with fail := c.fail + 1 }
    | .res s =>
      if s = "success" then { c with success := c.success + 1 }
      else if s = "signed" then { c with signed := c.signed + 1 }
      else { c with fail := c.fail + 1 }

/-- Unfolding lemma: a failing attempt with attempts remaining sleeps the fixed
delay and recurses on the remaining outcomes. -/
theorem do_sign_in_cons_retry (uid today : String) (delay : Rat)
    (o : AttemptOutcome) (rest : List AttemptOutcome)
    (hfo : attemptFails o) (hne : rest ≠ []) :
    do_sign_in_with_result uid today delay (o :: rest) =
      { status := (do_sign_in_with_result uid today delay rest).status,
        attempts := (do_sign_in_with_result uid today delay rest).attempts + 1,
        sleeps := delay :: (do_sign_in_with_result uid today delay rest).sleeps,
        record_writes := (do_sign_in_with_result uid today delay rest).record_writes } := by
  cases o with
  | noResp => simp [do_sign_in_with_result, hne]
  | exn => simp [do_sign_in_with_result, hne]
  | code c =>
    rcases hfo with ⟨h0, h1⟩
    simp [do_sign_in_with_result, hne, h0, h1]

/-- Unfolding lemma: a failing attempt with no attempts remaining ends the run
with the tagged `fail` result and no Sign-in Record write. -/
theorem do_sign_in_single_fail (uid today : String) (delay : Rat)
    (o : AttemptOutcome) (hfo : attemptFails o) :
    do_sign_in_with_result uid today delay [o] =
      { status := "fail", attempts := 1, sleeps := [], record_writes := [] } := by
  cases o with
  | noResp => simp [do_sign_in_with_result]
  | exn => simp [do_sign_in_with_result]
  | code c =>
    rcases hfo with ⟨h0, h1⟩
    simp [do_sign_in_with_result, h0, h1]

/-- C4: a per-account check-in in which every attempt fails (no response,
exception, or a code that is neither 0 nor the already-signed sentinel 10001)
makes exactly `max_retries` attempts — one per entry of the outcome list, whose
length is `max_retries` — and no more, sleeps the fixed `retry_delay` between
consecutive attempts (`max_retries - 1` sleeps), and returns the tagged result
`fail` without writing a Sign-in Record. -/
theorem do_sign_in_retry_bound (uid today : String) (delay : Rat)
    (outs : List AttemptOutcome) (hne : outs ≠ [])
    (hfail : ∀ o ∈ outs, attemptFails o) :
    do_sign_in_with_result uid today delay outs =
      { status := "fail", attempts := outs.length,
        sleeps := List.replicate (outs.length - 1) delay, record_writes := [] } := by
  induction outs with
  | nil => exact absurd rfl hne
  | cons o rest ih =>
    have hf := hfail o (List.mem_cons_self o rest)
    cases rest with
    | nil => simpa using do_sign_in_single_fail uid today delay o hf
    | cons o2 rest2 =>
      have hrec := ih (List.cons_ne_nil _ _)
        (fun x hx => hfail x (List.mem_cons_of_mem _ hx))
      rw [do_sign_in_cons_retry uid today delay o (o2 :: rest2) hf (List.cons_ne_nil _ _),
        hrec]
      simp [List.replicate_succ]

/-- Witness for `do_sign_in_retry_bound`: three failing attempts at the
default retry budget and delay give three attempts, two one-second sleeps, a
`fail` result and no Sign-in Record write. -/
theorem do_sign_in_retry_bound_witness :
    do_sign_in_with_result "u1" "2026-10-12" 1 [.noResp, .exn, .code 500] =
      { status := "fail", attempts := 3, sleeps := [1, 1], record_writes := [] } := by
  have h := do_sign_in_retry_bound "u1" "2026-10-12" 1 [.noResp, .exn, .code 500]
    (List.cons_ne_nil _ _) (by simp [attemptFails])
  exact h.trans (by decide)

/-- Helper: inserting a "signed" result anywhere in the gathered batch list
increments the signed counter and leaves the success and fail counters as they
were. -/
theorem tally_signed_insert : ∀ (L1 L2 : List BatchItem),
    tally (L1 ++ .res "signed" :: L2) =
      { success := (tally (L1 ++ L2)).success,
        signed := (tally (L1 ++ L2)).signed + 1,
        fail := (tally (L1 ++ L2)).fail }
  | [], L2 => by simp [tally]
  | it :: L1, L2 => by
    have ih := tally_signed_insert L1 L2
    cases it with
    | exn => simp [tally, ih]
    | res s =>
      by_cases h1 : s = "success"
      · simp [tally, ih, h1]
      · by_cases h2 : s = "signed"
        · simp [tally, ih, h1, h2]
        · simp [tally, ih, h1, h2]

/-- C5: an attempt whose response carries the already-signed sentinel code
10001 (after any number of failing attempts) ends the run with the tagged
result `signed` — not `success` — and writes the Sign-in Record for that UID
and today's date; and the batch aggregator counts such a result in the signed
counter, leaving the success (and fail) counters unchanged. -/
theorem do_sign_in_signed_spec (uid today : String) (delay : Rat)
    (pre rest : List AttemptOutcome) (L1 L2 : List BatchItem)
    (hpre : ∀ o ∈ pre, attemptFails o) :
    do_sign_in_with_result uid today delay (pre ++ .code 10001 :: rest) =
      { status := "signed", attempts := pre.length + 1,
        sleeps := List.replicate pre.length delay,
        record_writes := [(uid, today)] }
    ∧ tally (L1 ++ .res "signed" :: L2) =
      { success := (tally (L1 ++ L2)).success,
        signed := (tally (L1 ++ L2)).signed + 1,
        fail := (tally (L1 ++ L2)).fail } := by
  refine ⟨?_, tally_signed_insert L1 L2⟩
  induction pre with
  | nil => simp [do_sign_in_with_result]
  | cons o pre2 ih =>
    have hf := hpre o (List.mem_cons_self o pre2)
    have hrec := ih (fun x hx => hpre x (List.mem_cons_of_mem _ hx))
    have hne2 : pre2 ++ AttemptOutcome.code 10001 :: rest ≠ [] := by
      cases pre2 <;> simp
    rw [List.cons_append,
      do_sign_in_cons_retry uid today delay o (pre2 ++ AttemptOutcome.code 10001 :: rest) hf hne2,
      hrec]
    simp [List.replicate_succ]

/-- Witness for `do_sign_in_signed_spec`: one failed attempt then the 10001
sentinel gives a `signed` run with the Sign-in Record written, and the
aggregator counts it in `signed`, not `success`. -/
theorem do_sign_in_signed_spec_witness :
    do_sign_in_with_result "u1" "2026-10-12" 1 [.noResp, .code 10001] =
      { status := "signed", attempts := 2, sleeps := [1],
        record_writes := [("u1", "2026-10-12")] }
    ∧ tally [.res "success", .res "signed", .exn] =
      { success := 1, signed := 1, fail := 1 } := by
  have h := do_sign_in_signed_spec "u1" "2026-10-12" 1 [.noResp] []
    [.res "success"] [.exn] (by simp [attemptFails])
  exact ⟨h.1.trans (by decide), h.2.trans (by decide)⟩

/-! ## Response handling of the generic request method
(`EndUID/utils/api/requests.py`, `do_request` lines 287–336 and `EndApi.request`
lines 189–192) -/

/-- Response body as far as the request layer reads it: the `code` field and
the `message` field. -/
structure ApiResp where
  code : Int
  message : String
deriving Repr, DecidableEq

/-- One HTTP exchange as seen by `do_request`: a response with an HTTP status
and an optional parsed JSON body (`none` models a non-JSON or unparsable body,
which `read_response` replaces by a `code = RespCode.REQUEST_ERROR` dict), or a
raised network exception. -/
inductive HttpExchange where
  | ok (status : Nat) (body : Option ApiResp)
  | raised
deriving Repr, DecidableEq

/-- Observable trace of one `do_request` invocation: the returned value, the
number of HTTP calls issued, the number of `refresh_token(..., force=True)`
calls made (the source contains none: on a 400/403 body with
`code == RespCode.TOKEN_INVALID` it only logs and returns the body), and
whether the token-invalid condition was logged. -/
structure DoRequestTrace where
  result : Option ApiResp
  http_calls : Nat
  forced_refresh_calls : Nat
  logged_token_invalid : Bool
deriving Repr, DecidableEq

/-- Model of the inner `do_request` closure (requests.py lines 287–336; the GET
and POST arms handle the response identically): status 400 or 403 returns the
parsed body to the caller after logging (`CRED_INVALID` and `TOKEN_INVALID` get
distinct log lines, with no refresh call of any kind); any other non-200 status
returns `None`; status 200 returns the body; an exception returns `None`. -/
def do_request (ex : HttpExchange) : DoRequestTrace :=
  match ex with
  | .raised =>
    { result := none, http_calls := 1, forced_refresh_calls := 0,
      logged_token_invalid := false }
  | .ok status body =>
    let res : ApiResp :=
      match body with
      | some b => b
      | none => { code := RespCode.REQUEST_ERROR, message := "" }
    if status = 400 ∨ status = 403 then
      { result := some res, http_calls := 1, forced_refresh_calls := 0,
        logged_token_invalid :=
          !decide (res.code = RespCode.CRED_INVALID) &&
            decide (res.code = RespCode.TOKEN_INVALID) }
    else if status = 200 then
      { result := some res, http_calls := 1, forced_refresh_calls := 0,
        logged_token_invalid := false }
    else
      { result := none, http_calls := 1, forced_refresh_calls := 0,
        logged_token_invalid := false }

/-- Observable trace of one `EndApi.request` invocation: the single non-forced
`refresh_token` call of line 190 plus the inner `do_request` trace.  The
source runs `do_request` exactly once (line 341) with no retry loop around
it. -/
structure RequestTrace where
  result : Option ApiResp
  http_calls : Nat
  unforced_refresh_calls : Nat
  forced_refresh_calls : Nat
  logged_token_invalid : Bool
deriving Repr, DecidableEq

namespace EndApi

/-- Model of `EndApi.request` (requests.py lines 157–342) from token
resolution onward: `token` is the value returned by the initial non-forced
`refresh_token(cred)`; `none` aborts before any HTTP call. -/
def request (token : Option String) (ex : HttpExchange) : RequestTrace :=
  match token with
  | none =>
    { result := none, http_calls := 0, unforced_refresh_calls := 1,
      forced_refresh_calls := 0, logged_token_invalid := false }
  | some _ =>
    let d := do_request ex
    { result := d.result, http_calls := d.http_calls, unforced_refresh_calls := 1,
      forced_refresh_calls := d.forced_refresh_calls,
      logged_token_invalid := d.logged_token_invalid }

end EndApi

/-- C6 counterexample: a signed operation whose response has HTTP status 403
with the token-invalid code 220 does NOT trigger a forced token refresh — the
request layer performs zero forced refresh calls, contradicting the claim that
it performs one. -/
theorem request_token_invalid_forced_refresh_counterexample :
    ¬ ((EndApi.request (some "tok")
        (.ok 403 (some { code := RespCode.TOKEN_INVALID, message := "expired" }))).forced_refresh_calls
      = 1) := by
  decide

/-- C6 amended: for every signed operation whose response has HTTP status 400
or 403 with the token-invalid code 220, the request layer performs no forced
token refresh at all; it logs the token-invalid condition and surfaces the
response body unchanged to the caller (who can see the retryable code), issuing
exactly one HTTP call and one (initial, non-forced) refresh lookup, with no
retry inside this layer. -/
theorem request_token_invalid_surfaced (tok : String) (status : Nat) (b : ApiResp)
    (hs : status = 400 ∨ status = 403) (hc : b.code = RespCode.TOKEN_INVALID) :
    EndApi.request (some tok) (.ok status (some b)) =
      { result := some b, http_calls := 1, unforced_refresh_calls := 1,
        forced_refresh_calls := 0, logged_token_invalid := true } := by
  have hcc : ¬ b.code = RespCode.CRED_INVALID := by
    rw [hc]; decide
  have hti : ¬ RespCode.TOKEN_INVALID = RespCode.CRED_INVALID := by decide
  rcases hs with h | h <;> subst h <;>
    simp [EndApi.request, do_request, hc, hcc, hti]

/-- Witness for `request_token_invalid_surfaced` at HTTP 403 and code 220. -/
theorem request_token_invalid_surfaced_witness :
    EndApi.request (some "tok")
        (.ok 403 (some { code := 220, message := "expired" })) =
      { result := some { code := 220, message := "expired" }, http_calls := 1,
        unforced_refresh_calls := 1, forced_refresh_calls := 0,
        logged_token_invalid := true } := by
  exact request_token_invalid_surfaced "tok" 403 { code := 220, message := "expired" }
    (Or.inr rfl) (by decide)

/-! ## Batch-run state file (`EndUID/end_sign/sign_state.py`) and the
manual / scheduled entry points (`EndUID/end_sign/__init__.py`) -/

/-- Content of the state file when it exists: unreadable (JSON parse failure,
`get_state` returns `None`) or a parsed record with an optional `type` field
and an optional parseable `start_time` (absent models a missing key or a
format mismatch, whose exception `should_resume` catches). -/
inductive FileContent where
  | unreadable
  | parsed (stype : Option String) (start_time : Option Int)
deriving Repr, DecidableEq

/-- Result of `SigningState.should_resume`: whether to resume, and the state
file as left on disk by the call (`clear_state` deletes it in the stale
branch). -/
structure ResumeCheck where
  resume : Bool
  file_after : Option FileContent
deriving Repr, DecidableEq

/-- Model of `SigningState.should_resume` (sign_state.py lines 82–111): a
missing file, an unreadable file, or a record whose `start_time` fails to parse
gives no resume (leaving the file as it was); a record older than 86400 seconds
is cleared and gives no resume; otherwise the info log reads `state["type"]`
(whose absence raises, caught as no-resume without deleting) and the call
reports a resume with the file intact. -/
def should_resume (now : Int) (file : Option FileContent) : ResumeCheck :=
  match file with
  | none => { resume := false, file_after := none }
  | some .unreadable => { resume := false, file_after := some .unreadable }
  | some (.parsed stype st) =>
    match st with
    | none => { resume := false, file_after := some (.parsed stype none) }
    | some t =>
      if now - t > 86400 then { resume := false, file_after := none }
      else
        match stype with
        | none => { resume := false, file_after := some (.parsed none (some t)) }
        | some s => { resume := true, file_after := some (.parsed (some s) (some t)) }

/-- Action taken by the startup resume check. -/
inductive ResumeAction where
  | noResume
  | runAuto
  | runManual
deriving Repr, DecidableEq

/-- Model of `check_and_resume_end_signing` (end_sign/__init__.py lines
166–189): no resume means no run; otherwise the state is re-read and
`state.get("type", "auto")` selects the run kind to re-enter. -/
def check_and_resume_end_signing (now : Int) (file : Option FileContent) : ResumeAction :=
  let chk := should_resume now file
  if !chk.resume then .noResume
  else
    match chk.file_after with
    | none => .noResume
    | some .unreadable => .noResume
    | some (.parsed stype _) =>
      if stype.getD "auto" = "auto" then .runAuto else .runManual

/-- Events performed by the entry points, in order: chat messages, state-file
writes (`set_state`), the batch run itself (`end_auto_sign`), and state-file
deletions (`clear_state`). -/
inductive Ev where
  | sendMsg (s : String)
  | setState (stype : String)
  | runAutoSign
  | clearState
deriving Repr, DecidableEq

/-- Text chosen for the busy reply of `sign_all` (lines 38–39):
`"自动签到"` only when the state parses and its `type` equals `"auto"`,
`"全部签到"` otherwise. -/
def busyTypeText : Option FileContent → String
  | some (.parsed (some s) _) => if s = "auto" then "自动签到" else "全部签到"
  | _ => "全部签到"

/-- Model of the manual `sign_all` handler (end_sign/__init__.py lines 35–48):
if the state file exists (whatever its content), reply busy and stop; otherwise
write the manual state record, announce the start, run the batch, and delete
the record in a `finally` (also when `end_auto_sign` raises, modelled by
`autoRes = .error ()`). -/
def sign_all (file : Option FileContent) (autoRes : Except Unit String) : List Ev :=
  match file with
  | some _ =>
    [.sendMsg ("[EndUID] 正在执行" ++ busyTypeText file ++ "，请稍后...")]
  | none =>
    [.setState "manual", .sendMsg "[EndUID] 全部签到开始执行...", .runAutoSign] ++
      (match autoRes with
       | .ok msg => [.sendMsg msg, .clearState]
       | .error _ => [.clearState])

/-- Model of the scheduled entry `end_scheduled_sign` (lines 109–120): write
the auto state record, run the batch, push the summary to each of the `subs`
subscribers when the run returned a non-empty summary, and delete the record in
a `finally` (also on an exception). -/
def end_scheduled_sign (subs : Nat) (autoRes : Except Unit String) : List Ev :=
  [.setState "auto", .runAutoSign] ++
    (match autoRes with
     | .ok msg =>
       (if subs ≠ 0 ∧ ¬ msg.isEmpty then List.replicate subs (Ev.sendMsg msg) else []) ++
         [.clearState]
     | .error _ => [.clearState])

/-- Effect of one event on the state file: `set_state` writes a record with the
given type and the current time as `start_time`; `clear_state` deletes the
file; everything else leaves it alone. -/
def applyEv (now : Int) (file : Option FileContent) : Ev → Option FileContent
  | .setState t => some (.parsed (some t) (some now))
  | .clearState => none
  | .sendMsg _ => file
  | .runAutoSign => file

/-- State file left after a sequence of events. -/
def replayEvents (now : Int) (file : Option FileContent) (evs : List Ev) : Option FileContent :=
  evs.foldl (applyEv now) file

/-- C7: whenever the state file exists and is less than 24 hours old, the
manual "check in all" command replies with the busy message and does not start
a second batch run: `end_auto_sign` is not invoked and no new state record is
written. -/
theorem sign_all_mutual_exclusion (now st : Int) (stype : Option String)
    (autoRes : Except Unit String) (_hfresh : now - st < 86400) :
    sign_all (some (.parsed stype (some st))) autoRes =
      [.sendMsg ("[EndUID] 正在执行" ++
        busyTypeText (some (.parsed stype (some st))) ++ "，请稍后...")]
    ∧ Ev.runAutoSign ∉ sign_all (some (.parsed stype (some st))) autoRes
    ∧ (∀ t, Ev.setState t ∉ sign_all (some (.parsed stype (some st))) autoRes) := by
  refine ⟨rfl, ?_, ?_⟩
  · simp [sign_all]
  · intro t
    simp [sign_all]

/-- Witness for `sign_all_mutual_exclusion`: a manual-typed record half a day
old blocks the manual trigger with the busy reply. -/
theorem sign_all_mutual_exclusion_witness :
    sign_all (some (.parsed (some "manual") (some 50))) (.ok "done") =
      [.sendMsg "[EndUID] 正在执行全部签到，请稍后..."]
    ∧ Ev.runAutoSign ∉ sign_all (some (.parsed (some "manual") (some 50))) (.ok "done") := by
  have h := sign_all_mutual_exclusion 100 50 (some "manual") (.ok "done") (by decide)
  exact ⟨h.1.trans (by decide), h.2.1⟩

/-- C9: the manual-trigger guard tests only the existence of the state file,
never its age or content: for every content — stale or unreadable included —
the manual command replies busy, starts no run, writes nothing and deletes
nothing (the file is exactly as before); a stale record is discarded only by
the startup resume check. -/
theorem sign_all_guard_existence_only (c : FileContent) (autoRes : Except Unit String)
    (now st : Int) :
    sign_all (some c) autoRes =
      [.sendMsg ("[EndUID] 正在执行" ++ busyTypeText (some c) ++ "，请稍后...")]
    ∧ Ev.runAutoSign ∉ sign_all (some c) autoRes
    ∧ Ev.clearState ∉ sign_all (some c) autoRes
    ∧ replayEvents now (some c) (sign_all (some c) autoRes) = some c
    ∧ (∀ stype, now - st > 86400 →
        should_resume now (some (.parsed stype (some st))) =
          { resume := false, file_after := none }) := by
  refine ⟨rfl, ?_, ?_, rfl, ?_⟩
  · simp [sign_all]
  · simp [sign_all]
  · intro stype h
    simp [should_resume, h]

/-- Witness for `sign_all_guard_existence_only`: an unreadable state file still
blocks the manual trigger and survives it untouched, while the startup check
deletes a record two days old. -/
theorem sign_all_guard_existence_only_witness :
    sign_all (some .unreadable) (.error ()) =
      [.sendMsg "[EndUID] 正在执行全部签到，请稍后..."]
    ∧ replayEvents 200000 (some .unreadable) (sign_all (some .unreadable) (.error ())) =
        some .unreadable
    ∧ should_resume 200000 (some (.parsed (some "manual") (some 1))) =
        { resume := false, file_after := none } := by
  have h := sign_all_guard_existence_only .unreadable (.error ()) 200000 1
  exact ⟨h.1.trans (by decide), h.2.2.2.1, h.2.2.2.2 (some "manual") (by decide)⟩

/-- C8: a state record whose `start_time` lies more than 24 hours in the past
is deleted by the startup resume check and reports no resume, so no batch run
is re-entered; a record younger than 24 hours reports a resume and the startup
logic re-enters the recorded run kind ("auto" resumes the scheduled entry,
anything else the manual one). -/
theorem should_resume_stale_discard (now st : Int) (stype : Option String) (s : String) :
    (now - st > 86400 →
      should_resume now (some (.parsed stype (some st))) =
        { resume := false, file_after := none }
      ∧ check_and_resume_end_signing now (some (.parsed stype (some st))) = .noResume)
    ∧ (now - st < 86400 →
      (should_resume now (some (.parsed (some s) (some st)))).resume = true
      ∧ check_and_resume_end_signing now (some (.parsed (some s) (some st))) =
          (if s = "auto" then ResumeAction.runAuto else ResumeAction.runManual)) := by
  constructor
  · intro h
    constructor
    · simp [should_resume, h]
    · simp [check_and_resume_end_signing, should_resume, h]
  · intro h
    have hno : ¬ (now - st > 86400) := by omega
    constructor
    · simp [should_resume, hno]
    · simp [check_and_resume_end_signing, should_resume, hno, Option.getD]

/-- Witness for `should_resume_stale_discard`: a record from two days ago is
deleted with no resume; an auto record from a minute ago resumes the scheduled
run. -/
theorem should_resume_stale_discard_witness :
    (should_resume 200000 (some (.parsed (some "auto") (some 1))) =
      { resume := false, file_after := none }
    ∧ check_and_resume_end_signing 200000 (some (.parsed (some "auto") (some 1))) = .noResume)
    ∧ check_and_resume_end_signing 100 (some (.parsed (some "auto") (some 40))) = .runAuto := by
  have h1 := (should_resume_stale_discard 200000 1 (some "auto") "auto").1 (by decide)
  have h2 := (should_resume_stale_discard 100 40 (some "auto") "auto").2 (by decide)
  exact ⟨⟨h1.1, h1.2⟩, h2.2.trans (by decide)⟩

/-- Helper: chat messages do not touch the state file. -/
theorem foldl_applyEv_sendMsg (now : Int) (m : String) :
    ∀ (k : Nat) (f : Option FileContent),
      List.foldl (applyEv now) f (List.replicate k (.sendMsg m)) = f
  | 0, _ => rfl
  | k + 1, f => by
    rw [List.replicate_succ, List.foldl_cons]
    exact foldl_applyEv_sendMsg now m k f

/-- C10: both the manual handler and the scheduled entry run the batch and
delete the state file afterwards whether `end_auto_sign` returns normally
(`autoRes = .ok msg`) or raises (`autoRes = .error ()`), because the deletion
sits in a `finally`: their event traces end with `clearState`, replaying them
leaves no state file behind whatever was there before, and the next startup
resume check therefore reports no resume. -/
theorem batch_run_clears_state (now : Int) (autoRes : Except Unit String)
    (subs : Nat) (f0 : Option FileContent) :
    (sign_all none autoRes).getLast? = some .clearState
    ∧ Ev.runAutoSign ∈ sign_all none autoRes
    ∧ replayEvents now none (sign_all none autoRes) = none
    ∧ (end_scheduled_sign subs autoRes).getLast? = some .clearState
    ∧ Ev.runAutoSign ∈ end_scheduled_sign subs autoRes
    ∧ replayEvents now f0 (end_scheduled_sign subs autoRes) = none
    ∧ should_resume now (replayEvents now f0 (end_scheduled_sign subs autoRes)) =
        { resume := false, file_after := none } := by
  cases autoRes with
  | ok msg =>
    refine ⟨rfl, by simp [sign_all], rfl, ?_, by simp [end_scheduled_sign], ?_, ?_⟩
    · have hsplit : end_scheduled_sign subs (.ok msg) =
          ([Ev.setState "auto", Ev.runAutoSign] ++
            (if subs ≠ 0 ∧ ¬ msg.isEmpty = true then
              List.replicate subs (Ev.sendMsg msg) else [])) ++ [Ev.clearState] := by
        simp [end_scheduled_sign, List.append_assoc]
      rw [hsplit]
      exact List.getLast?_concat _
    · by_cases hif : subs ≠ 0 ∧ ¬ msg.isEmpty = true
      · simp [end_scheduled_sign, hif, replayEvents, List.foldl_append,
          foldl_applyEv_sendMsg, applyEv]
      · simp [end_scheduled_sign, hif, replayEvents, applyEv]
    · by_cases hif : subs ≠ 0 ∧ ¬ msg.isEmpty = true
      · simp [end_scheduled_sign, hif, replayEvents, List.foldl_append,
          foldl_applyEv_sendMsg, applyEv, should_resume]
      · simp [end_scheduled_sign, hif, replayEvents, applyEv, should_resume]
  | error e =>
    refine ⟨rfl, by simp [sign_all], rfl, rfl, by simp [end_scheduled_sign], rfl, ?_⟩
    simp [end_scheduled_sign, replayEvents, applyEv, should_resume]
